import Mathlib

/-!
Verification development for the research-paper MCP server (src/server.py).

The server exposes six tools (search_arxiv, search_semantic_scholar,
download_paper, extract_insights, analyze_citations, store_paper_knowledge)
over the MCP protocol.  Tool arguments arrive as JSON objects; each handler
extracts fields with dict.get-style defaults, runs its body inside a
try/except and serialises either a success payload or a failure payload
of the shape \x7b"success": false, "error": str(e)\x7d.

The embedding below models JSON/Python values as the inductive `JVal`,
argument dicts as association lists, raised exceptions as `Except.error`,
and the external collaborators (arXiv library, HTTP client, filesystem,
hashlib) as function parameters.  Logging calls are modelled only insofar
as they evaluate their arguments (an f-string argument that raises, raises
before the try block).  Python's unicode-aware character classes (\w, \s,
str.lower) are modelled by their ASCII parts; no statement proved below
depends on the difference.
-/

/-- JSON-ish Python value: the shape of tool arguments and payloads. -/
inductive JVal where
  | null
  | bool (b : Bool)
  | int (n : Int)
  | str (s : String)
  | arr (xs : List JVal)
  | obj (fields : List (String × JVal))

/-- A Python dict with string keys, as handed to the tool handlers. -/
abbrev PyDict := List (String × JVal)

/-- Dict lookup: first binding of the key, if any. -/
def lookupJ (d : PyDict) (k : String) : Option JVal :=
  (d.find? (fun p => p.1 == k)).map (fun p => p.2)

/-- Python `d.get(k, default)`: the stored value (even if None) or the default. -/
def dget (d : PyDict) (k : String) (dflt : JVal) : JVal :=
  (lookupJ d k).getD dflt

/-- Single-quote a string, as Python error messages do. -/
def pyQuote (s : String) : String := "\x27" ++ s ++ "\x27"

/-- Python type name of a value, used in TypeError/AttributeError messages. -/
def pyTypeName : JVal → String
  | .null => "NoneType"
  | .bool _ => "bool"
  | .int _ => "int"
  | .str _ => "str"
  | .arr _ => "list"
  | .obj _ => "dict"

/-- Python `len(v)`: defined for sized values, a TypeError otherwise. -/
def pyLen : JVal → Option Nat
  | .str s => some s.length
  | .arr xs => some xs.length
  | .obj fs => some fs.length
  | _ => none

/-- Message of the TypeError raised by `len` on an unsized value. -/
def lenTypeErr (v : JVal) : String :=
  "object of type " ++ pyQuote (pyTypeName v) ++ " has no len()"

/-- Message of the TypeError raised by `re.sub`/`re.split` on a non-string. -/
def reTypeErr (v : JVal) : String :=
  "expected string or bytes-like object, got " ++ pyQuote (pyTypeName v)

/-- Message of the AttributeError raised by `.get` on a non-dict. -/
def attrGetErr (v : JVal) : String :=
  pyQuote (pyTypeName v) ++ " object has no attribute " ++ pyQuote "get"

/-- Message of the AttributeError raised by `.encode` on a non-string. -/
def encodeErr (v : JVal) : String :=
  pyQuote (pyTypeName v) ++ " object has no attribute " ++ pyQuote "encode"

/-- Message of the TypeError raised by iterating a non-iterable. -/
def iterErr (v : JVal) : String :=
  pyQuote (pyTypeName v) ++ " object is not iterable"

/-- Message of the TypeError raised by hashing an unhashable dict key. -/
def unhashErr (v : JVal) : String :=
  "unhashable type: " ++ pyQuote (pyTypeName v)

mutual

/-- Python repr of a value (string escaping inside repr is not modelled;
no proved statement depends on the rendering of containers). -/
def pyRepr : JVal → String
  | .null => "None"
  | .bool true => "True"
  | .bool false => "False"
  | .int n => toString n
  | .str s => pyQuote s
  | .arr xs => "[" ++ String.intercalate ", " (pyReprList xs) ++ "]"
  | .obj fs => "\x7b" ++ String.intercalate ", " (pyReprFields fs) ++ "\x7d"

def pyReprList : List JVal → List String
  | [] => []
  | v :: rest => pyRepr v :: pyReprList rest

def pyReprFields : List (String × JVal) → List String
  | [] => []
  | (k, v) :: rest => (pyQuote k ++ ": " ++ pyRepr v) :: pyReprFields rest
end

/-- Python `str(v)` as used in f-strings: strings verbatim, repr otherwise. -/
def pyStrF : JVal → String
  | .str s => s
  | v => pyRepr v

/-- Whether a value may be used as a dict key (lists and dicts may not). -/
def pyHashable : JVal → Bool
  | .arr _ => false
  | .obj _ => false
  | _ => true

/-- All elements of a list are strings; return them. -/
def allStrs : List JVal → Option (List String)
  | [] => some []
  | .str s :: rest => (allStrs rest).map (fun ss => s :: ss)
  | _ => none

/-- Python `sep.join(v)`: joins a string (char by char), a list of strings,
or a dict (its keys); raises a TypeError otherwise.  (The message of the
per-item TypeError is abbreviated; no claim inspects it.) -/
def pyJoin (sep : String) : JVal → Except String String
  | .str s => .ok (String.intercalate sep (s.data.map Char.toString))
  | .arr xs =>
    match allStrs xs with
    | some ss => .ok (String.intercalate sep ss)
    | none => .error "sequence item: expected str instance"
  | .obj fs => .ok (String.intercalate sep (fs.map (fun p => p.1)))
  | v => .error ("can only join an iterable: " ++ iterErr v)

/-- Python `for x in v`: the elements of a list, the characters of a string,
the keys of a dict; a TypeError otherwise. -/
def pyIter : JVal → Except String (List JVal)
  | .arr xs => .ok xs
  | .str s => .ok (s.data.map (fun c => JVal.str c.toString))
  | .obj fs => .ok (fs.map (fun p => JVal.str p.1))
  | v => .error (iterErr v)

/-- The failure envelope every handler's except-branch serialises. -/
def failureEnv (e : String) : JVal :=
  .obj [("success", .bool false), ("error", .str e)]

/-- Whether a payload is a failure envelope: success is false and an
error field is present. -/
def isFailureEnv (v : JVal) : Bool :=
  match v with
  | .obj fs =>
    match lookupJ fs "success", lookupJ fs "error" with
    | some (.bool false), some _ => true
    | _, _ => false
  | _ => false

/-- The try/except boundary of a handler: the try block's result, or the
failure envelope carrying the caught exception's message.  The handler
returns a one-element content list either way. -/
def runTry (b : Except String JVal) : JVal :=
  match b with
  | .ok v => v
  | .error e => failureEnv e

/-- Sort criteria understood by the arxiv library. -/
inductive SortCrit where
  | relevance
  | lastUpdatedDate
  | submittedDate

/-- The handler's sort_map.get(sort_by_str, Relevance): unknown hashable
values default to Relevance; an unhashable key raises a TypeError. -/
def sortMap : JVal → Except String SortCrit
  | .arr xs => .error (unhashErr (.arr xs))
  | .obj fs => .error (unhashErr (.obj fs))
  | .str s =>
    .ok (if s = "lastUpdatedDate" then SortCrit.lastUpdatedDate
         else if s = "submittedDate" then SortCrit.submittedDate
         else SortCrit.relevance)
  | _ => .ok SortCrit.relevance

/-- Try block of search_arxiv: map the sort string, run the arXiv search,
serialise the success payload \x7bsuccess, query, count, papers\x7d. -/
def arxivBody (f : JVal → JVal → SortCrit → Except String (List JVal))
    (query max_results sort_by_str : JVal) : Except String JVal :=
  match sortMap sort_by_str with
  | .error e => .error e
  | .ok sb =>
    match f query max_results sb with
    | .error e => .error e
    | .ok results =>
      .ok (.obj [("success", .bool true), ("query", query),
                 ("count", .int (results.length : Int)), ("papers", .arr results)])

/-- Handler search_arxiv: args.get defaults query "", max_results 10,
sort_by "relevance"; the logging preamble cannot raise. -/
def search_arxiv (f : JVal → JVal → SortCrit → Except String (List JVal))
    (args : PyDict) : Except String (List JVal) :=
  let query := dget args "query" (.str "")
  let max_results := dget args "max_results" (.int 10)
  let sort_by_str := dget args "sort_by" (.str "relevance")
  .ok [runTry (arxivBody f query max_results sort_by_str)]

/-- Default fields list of search_semantic_scholar. -/
def sscDefaultFields : JVal :=
  .arr [.str "title", .str "authors", .str "abstract", .str "citationCount", .str "year"]

/-- Try block of search_semantic_scholar: join the fields list, perform the
HTTP search (non-200 responses raise inside the collaborator), serialise. -/
def sscBody (g : JVal → String → JVal → Except String (List JVal))
    (query fields limit : JVal) : Except String JVal :=
  match pyJoin "," fields with
  | .error e => .error e
  | .ok fieldsStr =>
    match g query fieldsStr limit with
    | .error e => .error e
    | .ok papers =>
      .ok (.obj [("success", .bool true), ("query", query),
                 ("count", .int (papers.length : Int)), ("papers", .arr papers)])

/-- Handler search_semantic_scholar: defaults fields to the five-field list
and limit to 10; the logging preamble cannot raise. -/
def search_semantic_scholar (g : JVal → String → JVal → Except String (List JVal))
    (args : PyDict) : Except String (List JVal) :=
  let query := dget args "query" (.str "")
  let fields := dget args "fields" sscDefaultFields
  let limit := dget args "limit" (.int 10)
  .ok [runTry (sscBody g query fields limit)]

/-- Characters Python's regex \w matches (ASCII part; the handler's isWord
parameter abstracts the full unicode table, constrained only where a claim
needs it: word characters are never path separators). -/
def isWordAscii (c : Char) : Bool := c.isAlphanum || c = '_'

/-- One character of re.sub applied to the class [^\w\-]: word characters
and hyphens survive, everything else becomes an underscore. -/
def sanChar (isW : Char → Bool) (c : Char) : Char :=
  if isW c || c = '-' then c else '_'

/-- safe_id = re.sub applied to paper_id with pattern [^\w\-] and
replacement underscore. -/
def sanitizeId (isW : Char → Bool) (s : String) : String :=
  String.mk (s.data.map (sanChar isW))

/-- PAPERS_DIR = os.path.join(base, "research-papers") for the configured
base directory. -/
def PAPERS_DIR (base : String) : String := base ++ "/research-papers"

/-- Try block of download_paper: sanitise the id (re.sub raises a TypeError
on a non-string), build the path, fetch the bytes, persist, serialise. -/
def downloadBody (isW : Char → Bool) (papersDir : String)
    (httpGet : JVal → Except String (List Nat))
    (writeB : String → List Nat → Except String Unit)
    (url paper_id : JVal) : Except String JVal :=
  match paper_id with
  | .str s =>
    let pdf_path := papersDir ++ "/" ++ sanitizeId isW s ++ ".pdf"
    match httpGet url with
    | .error e => .error e
    | .ok content =>
      match writeB pdf_path content with
      | .error e => .error e
      | .ok _ =>
        .ok (.obj [("success", .bool true), ("paper_id", paper_id),
                   ("file_path", .str pdf_path),
                   ("size_bytes", .int (content.length : Int))])
  | v => .error (reTypeErr v)

/-- Handler download_paper: defaults url and paper_id to ""; the logging
preamble cannot raise. -/
def download_paper (isW : Char → Bool) (papersDir : String)
    (httpGet : JVal → Except String (List Nat))
    (writeB : String → List Nat → Except String Unit)
    (args : PyDict) : Except String (List JVal) :=
  let url := dget args "url" (.str "")
  let paper_id := dget args "paper_id" (.str "")
  .ok [runTry (downloadBody isW papersDir httpGet writeB url paper_id)]

/-- Characters Python's regex \s matches (ASCII part). -/
def isPySpace (c : Char) : Bool :=
  c = ' ' || c = '\t' || c = '\n' || c = '\r' || c = '\x0b' || c = '\x0c'

/-- Sentence-final punctuation of the splitting pattern [.!?]. -/
def isSentPunct (c : Char) : Bool := c = '.' || c = '!' || c = '?'

/-- Scanner state for the sentence splitter: building the current piece
(norm); just saw a sentence punctuation character, held back because it is
removed only when whitespace follows (pend); consuming the whitespace run
of a match (skip). -/
inductive SplitSt where
  | norm
  | pend (p : Char)
  | skip

/-- re.split applied with pattern [.!?]\s+, as a single left-to-right
scan: a match is one punctuation character followed by a maximal nonempty
whitespace run; matches are removed and the pieces between them returned.
In state norm characters accumulate into the current piece (reversed) and
a punctuation character moves to state pend; in state pend a whitespace
character completes a match (the piece is emitted without the punctuation
and the rest of the whitespace run is consumed in state skip) while any
other character returns the held punctuation to the piece; at the end of
input a held punctuation belongs to the final piece. -/
def splitGo : List Char → SplitSt → List Char → List (List Char)
  | [], .norm, cur => [cur.reverse]
  | [], .pend p, cur => [(p :: cur).reverse]
  | [], .skip, cur => [cur.reverse]
  | c :: rest, .norm, cur =>
    if isSentPunct c then splitGo rest (.pend c) cur
    else splitGo rest .norm (c :: cur)
  | c :: rest, .pend p, cur =>
    if isPySpace c then cur.reverse :: splitGo rest .skip []
    else if isSentPunct c then splitGo rest (.pend c) (p :: cur)
    else splitGo rest .norm (c :: p :: cur)
  | c :: rest, .skip, cur =>
    if isPySpace c then splitGo rest .skip cur
    else if isSentPunct c then splitGo rest (.pend c) cur
    else splitGo rest .norm (c :: cur)

/-- sentences = re.split applied to the paper text. -/
def splitSentences (s : String) : List String :=
  (splitGo s.data .norm []).map (fun l => String.mk l)

/-- Python str.strip(): drop leading and trailing whitespace. -/
def pyStrip (s : String) : String :=
  String.mk (((s.data.dropWhile isPySpace).reverse.dropWhile isPySpace).reverse)

/-- Python str.lower() (ASCII part). -/
def pyLower (s : String) : String := String.mk (s.data.map Char.toLower)

/-- The fixed key-phrase list of extract_insights. -/
def keyPhrases : List String :=
  ["we propose", "we demonstrate", "we show", "we present",
   "our method", "our approach", "our results",
   "achieve", "outperform", "improvement", "novel",
   "state-of-the-art", "significant", "effective"]

/-- The pattern starts the list (character-by-character comparison). -/
def startsWithChars : List Char → List Char → Bool
  | [], _ => true
  | _ :: _, [] => false
  | a :: as, b :: bs => a == b && startsWithChars as bs

/-- The pattern occurs somewhere in the list. -/
def hasSubChars (pat : List Char) : List Char → Bool
  | [] => pat.isEmpty
  | b :: bs => startsWithChars pat (b :: bs) || hasSubChars pat bs

/-- Python `pat in s`: substring containment. -/
def containsSub (s pat : String) : Bool := hasSubChars pat.data s.data

/-- any(phrase in sentence.lower() for phrase in key_phrases). -/
def hasKeyPhrase (s : String) : Bool :=
  keyPhrases.any (fun p => containsSub (pyLower s) p)

/-- The filter of the insight loop: a key phrase is present and the raw
sentence length is strictly between 50 and 300. -/
def keepSentence (s : String) : Bool :=
  hasKeyPhrase s && decide (50 < s.length) && decide (s.length < 300)

/-- One iteration's effect on the insight list: append the stripped
sentence when the filter holds. -/
def insightStep (s : String) (acc : List String) : List String :=
  if keepSentence s then acc ++ [pyStrip s] else acc

/-- The insight accumulation loop: apply the step for each sentence and
break as soon as ten insights have accumulated. -/
def insightLoop : List String → List String → List String
  | [], acc => acc
  | s :: rest, acc =>
    if 10 ≤ (insightStep s acc).length then insightStep s acc
    else insightLoop rest (insightStep s acc)

/-- The insights extract_insights computes for a paper text. -/
def insightsOf (text : String) : List String :=
  insightLoop (splitSentences text) []

/-- Try block of extract_insights: re.split raises a TypeError on a
non-string paper_text; otherwise the loop runs and the success payload
\x7bsuccess, insights, focus_areas\x7d is serialised. -/
def insightsBody (paper_text focus_areas : JVal) : Except String JVal :=
  match paper_text with
  | .str s =>
    .ok (.obj [("success", .bool true),
               ("insights", .arr ((insightsOf s).map JVal.str)),
               ("focus_areas", focus_areas)])
  | v => .error (reTypeErr v)

/-- Handler extract_insights: the logging preamble evaluates
len(paper_text) before the try block, so an unsized paper_text raises out
of the handler (Except.error, not a failure envelope). -/
def extract_insights (args : PyDict) : Except String (List JVal) :=
  let paper_text := dget args "paper_text" (.str "")
  let focus_areas := dget args "focus_areas" (.arr [])
  match pyLen paper_text with
  | none => .error (lenTypeErr paper_text)
  | some _ => .ok [runTry (insightsBody paper_text focus_areas)]

/-- Try block of analyze_citations: fetch the paper record (non-200
responses raise inside the collaborator), read its fields with .get
defaults, take len of citations and references, serialise. -/
def citationsBody (g : JVal → String → Except String JVal)
    (paper_id : JVal) : Except String JVal :=
  match g paper_id "title,citationCount,influentialCitationCount,citations,references" with
  | .error e => .error e
  | .ok data =>
    match data with
    | .obj d =>
      let cit := (lookupJ d "citations").getD (.arr [])
      match pyLen cit with
      | none => .error (lenTypeErr cit)
      | some nCit =>
        let refs := (lookupJ d "references").getD (.arr [])
        match pyLen refs with
        | none => .error (lenTypeErr refs)
        | some nRef =>
          .ok (.obj [("success", .bool true),
                     ("citation_graph", .obj
                       [("paper_id", paper_id),
                        ("title", (lookupJ d "title").getD .null),
                        ("citation_count", (lookupJ d "citationCount").getD (.int 0)),
                        ("influential_citations", (lookupJ d "influentialCitationCount").getD (.int 0)),
                        ("citations", .int (nCit : Int)),
                        ("references", .int (nRef : Int))])])
    | v => .error (attrGetErr v)

/-- Handler analyze_citations: defaults paper_id to "" and depth to 1
(depth is only logged, never used); the logging preamble cannot raise. -/
def analyze_citations (g : JVal → String → Except String JVal)
    (args : PyDict) : Except String (List JVal) :=
  let paper_id := dget args "paper_id" (.str "")
  let _depth := dget args "depth" (.int 1)
  .ok [runTry (citationsBody g paper_id)]

/-- The entity-name suffix of store_paper_knowledge:
paper_metadata.get("id", md5(title.encode()).hexdigest()[:8]).  Python
evaluates the default argument of dict.get eagerly, so .encode runs on the
title (default "") unconditionally and raises an AttributeError on a
non-string title even when "id" is present; only afterwards does .get pick
the stored "id" value, if any, over the digest. -/
def storeIdPart (md5hex : String → String) (pm : PyDict) : Except String String :=
  match (lookupJ pm "title").getD (.str "") with
  | .str t =>
    match lookupJ pm "id" with
    | some v => .ok (pyStrF v)
    | none => .ok ((md5hex t).take 8)
  | v => .error (encodeErr v)

/-- Try block of store_paper_knowledge: build the entity name, the four
base observations (the authors join may raise), extend with the insight
and technique observations (iterating a non-iterable raises), serialise. -/
def storeBody (md5hex : String → String) (pm : PyDict)
    (insights techniques : JVal) : Except String JVal :=
  match storeIdPart md5hex pm with
  | .error e => .error e
  | .ok idPart =>
    match pyJoin ", " ((lookupJ pm "authors").getD (.arr [])) with
    | .error e => .error e
    | .ok authorsStr =>
      match pyIter insights with
      | .error e => .error e
      | .ok insList =>
        match pyIter techniques with
        | .error e => .error e
        | .ok techList =>
          let observations :=
            ["Title: " ++ pyStrF ((lookupJ pm "title").getD .null),
             "Authors: " ++ authorsStr,
             "Year: " ++ pyStrF ((lookupJ pm "year").getD (.str "Unknown")),
             "Citations: " ++ pyStrF ((lookupJ pm "citationCount").getD (.int 0))]
            ++ insList.map (fun i => "Insight: " ++ pyStrF i)
            ++ techList.map (fun t => "Technique: " ++ pyStrF t)
          .ok (.obj [("success", .bool true),
                     ("entity_name", .str ("research_paper_" ++ idPart)),
                     ("observations_count", .int (observations.length : Int)),
                     ("message", .str "Paper knowledge ready for storage in enhanced-memory")])

/-- Handler store_paper_knowledge: the logging preamble evaluates
paper_metadata.get("title", "Unknown") before the try block, so a
non-dict paper_metadata raises out of the handler. -/
def store_paper_knowledge (md5hex : String → String)
    (args : PyDict) : Except String (List JVal) :=
  let paper_metadata := dget args "paper_metadata" (.obj [])
  let insights := dget args "insights" (.arr [])
  let techniques := dget args "techniques" (.arr [])
  match paper_metadata with
  | .obj pm => .ok [runTry (storeBody md5hex pm insights techniques)]
  | v => .error (attrGetErr v)

/-- Input schema of a tool: JSON-schema property names with their declared
types, and the required field names. -/
structure ToolSchema where
  properties : List (String × String)
  required : List String

/-- A tool descriptor as returned by the capability listing. -/
structure Tool where
  name : String
  inputSchema : ToolSchema

/-- handle_list_tools: the literal six-descriptor list the server returns,
in registration order, on every call. -/
def handle_list_tools : List Tool :=
  [{ name := "search_arxiv",
     inputSchema :=
       { properties := [("query", "string"), ("max_results", "integer"), ("sort_by", "string")],
         required := ["query"] } },
   { name := "search_semantic_scholar",
     inputSchema :=
       { properties := [("query", "string"), ("fields", "array"), ("limit", "integer")],
         required := ["query"] } },
   { name := "download_paper",
     inputSchema :=
       { properties := [("url", "string"), ("paper_id", "string")],
         required := ["url", "paper_id"] } },
   { name := "extract_insights",
     inputSchema :=
       { properties := [("paper_text", "string"), ("focus_areas", "array")],
         required := ["paper_text"] } },
   { name := "analyze_citations",
     inputSchema :=
       { properties := [("paper_id", "string"), ("depth", "integer")],
         required := ["paper_id"] } },
   { name := "store_paper_knowledge",
     inputSchema :=
       { properties := [("paper_metadata", "object"), ("insights", "array"), ("techniques", "array")],
         required := ["paper_metadata", "insights"] } }]

/-- The external collaborators of the six handlers: the arXiv search
library, the Semantic Scholar HTTP search, the PDF download and byte
persistence, the citation-record fetch, hashlib's md5 hexdigest, and the
unicode word-character table of regex \w, plus the configured papers
directory.  Each Except-valued function may raise (Except.error). -/
structure ExternalOps where
  arxivSearch : JVal → JVal → SortCrit → Except String (List JVal)
  sscGet : JVal → String → JVal → Except String (List JVal)
  httpGet : JVal → Except String (List Nat)
  writeB : String → List Nat → Except String Unit
  citeGet : JVal → String → Except String JVal
  md5hex : String → String
  isWord : Char → Bool
  papersDir : String

/-- handle_call_tool: dispatch on the tool name, coalescing a None
arguments object to the empty dict; an unregistered name raises
ValueError("Unknown tool: ..."). -/
def handle_call_tool (E : ExternalOps) (name : String) (arguments : Option PyDict) :
    Except String (List JVal) :=
  if name = "search_arxiv" then
    search_arxiv E.arxivSearch (arguments.getD [])
  else if name = "search_semantic_scholar" then
    search_semantic_scholar E.sscGet (arguments.getD [])
  else if name = "download_paper" then
    download_paper E.isWord E.papersDir E.httpGet E.writeB (arguments.getD [])
  else if name = "extract_insights" then
    extract_insights (arguments.getD [])
  else if name = "analyze_citations" then
    analyze_citations E.citeGet (arguments.getD [])
  else if name = "store_paper_knowledge" then
    store_paper_knowledge E.md5hex (arguments.getD [])
  else
    .error ("Unknown tool: " ++ name)

/-- Modelled from the spec: the MCP framework's call-tool boundary (the
`@server.call_tool()` decorator, not part of this repository's sources)
catches an exception raised by handle_call_tool and delivers it to the
caller in-band as a Failure envelope instead of terminating the stream
(spec section 7: "UnknownToolError (unregistered name) — recoverable,
returned as a Failure envelope, session continues"). -/
def call_tool_boundary (E : ExternalOps) (name : String) (arguments : Option PyDict) :
    List JVal :=
  match handle_call_tool E name arguments with
  | .ok r => r
  | .error e => [failureEnv e]

/-- A concrete instantiation of the external collaborators used by the
closed witness and counterexample theorems: every external call succeeds
with an empty result. -/
def extOk : ExternalOps :=
  { arxivSearch := fun _ _ _ => .ok []
    sscGet := fun _ _ _ => .ok []
    httpGet := fun _ => .ok []
    writeB := fun _ _ => .ok ()
    citeGet := fun _ _ => .ok (.obj [])
    md5hex := fun _ => "d41d8cd98f00b204e9800998ecf8427e"
    isWord := isWordAscii
    papersDir := PAPERS_DIR "/mnt/agentic-system"
    }

/-- C4: handle_list_tools never fails and returns exactly the six
registered tool descriptors, each exactly once, in registration order;
being a constant of the program, the sequence is the same on every call. -/
theorem claim_C4_list_tools :
    handle_list_tools.map Tool.name =
      ["search_arxiv", "search_semantic_scholar", "download_paper",
       "extract_insights", "analyze_citations", "store_paper_knowledge"] ∧
    (handle_list_tools.map Tool.name).Nodup ∧
    handle_list_tools.length = 6 := by
  refine ⟨rfl, ?_, rfl⟩
  decide

/-- C10: calling handle_call_tool with arguments = None is total and
behaves exactly as calling it with the empty dict, for every tool name:
the None is coalesced before dispatch, and each handler then applies its
per-field defaults (search_arxiv in particular reads query as ""). -/
theorem claim_C10_none_coalesced (E : ExternalOps) (name : String) :
    handle_call_tool E name none = handle_call_tool E name (some []) ∧
    handle_call_tool E "search_arxiv" none = search_arxiv E.arxivSearch [] ∧
    dget ([] : PyDict) "query" (.str "") = .str "" :=
  ⟨rfl, rfl, rfl⟩

/-- C3: a call to handle_call_tool with an unregistered tool name reaches
the framework boundary as a raised ValueError and is delivered to the
caller as a Failure envelope naming the unknown tool, not as silence or a
stream termination. -/
theorem claim_C3_unknown_tool (E : ExternalOps) (arguments : Option PyDict)
    (name : String)
    (h : name ∉ ["search_arxiv", "search_semantic_scholar", "download_paper",
                 "extract_insights", "analyze_citations", "store_paper_knowledge"]) :
    call_tool_boundary E name arguments = [failureEnv ("Unknown tool: " ++ name)] ∧
    isFailureEnv (failureEnv ("Unknown tool: " ++ name)) = true := by
  simp only [List.mem_cons, List.not_mem_nil, or_false, not_or] at h
  obtain ⟨h1, h2, h3, h4, h5, h6⟩ := h
  constructor
  · unfold call_tool_boundary handle_call_tool
    rw [if_neg h1, if_neg h2, if_neg h3, if_neg h4, if_neg h5, if_neg h6]
  · rfl

/-- C3 witness: the unknown name "browse_web" gets the Failure envelope. -/
theorem claim_C3_unknown_tool_witness :
    call_tool_boundary extOk "browse_web" none =
      [failureEnv ("Unknown tool: " ++ "browse_web")] ∧
    isFailureEnv (failureEnv ("Unknown tool: " ++ "browse_web")) = true :=
  claim_C3_unknown_tool extOk none "browse_web" (by decide)

/-- C2 counterexample: calling search_arxiv with arguments missing the
required field "query" does not produce a Failure envelope naming a
missing field — the handler is invoked anyway (with query defaulted to
"") and, with a succeeding search, returns a Success envelope. -/
theorem claim_C2_counterexample :
    handle_call_tool extOk "search_arxiv" (some []) =
      .ok [JVal.obj [("success", .bool true), ("query", .str ""),
                     ("count", .int 0), ("papers", .arr [])]] ∧
    isFailureEnv (JVal.obj [("success", .bool true), ("query", .str ""),
                            ("count", .int 0), ("papers", .arr [])]) = false :=
  ⟨rfl, rfl⟩

/-- C2 amended: arguments missing a required field are not rejected by any
schema validation; the handler is invoked with each missing field replaced
by its per-field default (search_arxiv without "query" runs with query ""
and returns the handler's normal envelope). -/
theorem claim_C2_amended_defaults (E : ExternalOps) (ps : List JVal)
    (h : E.arxivSearch (.str "") (.int 10) SortCrit.relevance = .ok ps) :
    handle_call_tool E "search_arxiv" (some []) = search_arxiv E.arxivSearch [] ∧
    search_arxiv E.arxivSearch [] =
      .ok [JVal.obj [("success", .bool true), ("query", .str ""),
                     ("count", .int (ps.length : Int)), ("papers", .arr ps)]] := by
  refine ⟨rfl, ?_⟩
  show Except.ok [runTry
      (match E.arxivSearch (.str "") (.int 10) SortCrit.relevance with
       | .error e => .error e
       | .ok results =>
         .ok (.obj [("success", .bool true), ("query", .str ""),
                    ("count", .int (results.length : Int)),
                    ("papers", .arr results)]))] = _
  rw [h]
  rfl

/-- C2 amended witness: the concrete empty-argument call with an
empty-result search library. -/
theorem claim_C2_amended_defaults_witness :
    handle_call_tool extOk "search_arxiv" (some []) =
      search_arxiv extOk.arxivSearch [] ∧
    search_arxiv extOk.arxivSearch [] =
      .ok [JVal.obj [("success", .bool true), ("query", .str ""),
                     ("count", .int 0), ("papers", .arr [])]] :=
  claim_C2_amended_defaults extOk [] rfl

/-- C1 counterexample: extract_insights with the argument dict
paper_text = 5 raises a TypeError in its logging preamble (len of an int)
before the try block, so the exception propagates out of the handler
instead of becoming a Failure envelope. -/
theorem claim_C1_counterexample :
    extract_insights [("paper_text", JVal.int 5)] =
      .error (lenTypeErr (JVal.int 5)) := rfl

/-- C1 amended: every exception raised inside a handler's try block is
caught and returned as exactly one Failure envelope; in particular a
failing external call with message m yields \x7bsuccess: false, error: m\x7d
when no earlier try statement raised.  Exceptions raised before the try
block (possible only in extract_insights, via len(paper_text), and in
store_paper_knowledge, via paper_metadata.get in the logging line)
propagate out of the handler; for all other argument dicts the handler
returns exactly one envelope. -/
theorem claim_C1_amended (m : String) (md5hex : String → String)
    (isW : Char → Bool) (papersDir : String)
    (writeB : String → List Nat → Except String Unit)
    (aA aS aD aC aE aK : PyDict)
    (hA : ∃ srt, sortMap (dget aA "sort_by" (.str "relevance")) = .ok srt)
    (hS : ∃ fs, pyJoin "," (dget aS "fields" sscDefaultFields) = .ok fs)
    (hD : ∃ s, dget aD "paper_id" (.str "") = .str s)
    (hE1 : ∃ n, pyLen (dget aE "paper_text" (.str "")) = some n)
    (hE2 : ∀ s, dget aE "paper_text" (.str "") ≠ .str s)
    (hK : ∃ pm, dget aK "paper_metadata" (.obj []) = .obj pm) :
    search_arxiv (fun _ _ _ => .error m) aA = .ok [failureEnv m] ∧
    search_semantic_scholar (fun _ _ _ => .error m) aS = .ok [failureEnv m] ∧
    download_paper isW papersDir (fun _ => .error m) writeB aD = .ok [failureEnv m] ∧
    analyze_citations (fun _ _ => .error m) aC = .ok [failureEnv m] ∧
    extract_insights aE = .ok [failureEnv (reTypeErr (dget aE "paper_text" (.str "")))] ∧
    (∃ r, store_paper_knowledge md5hex aK = .ok r) := by
  obtain ⟨srt, hsrt⟩ := hA
  obtain ⟨fs, hfs⟩ := hS
  obtain ⟨sD, hsD⟩ := hD
  obtain ⟨n, hn⟩ := hE1
  obtain ⟨pm, hpm⟩ := hK
  refine ⟨?_, ?_, ?_, ?_, ?_, ?_⟩
  · simp only [search_arxiv, arxivBody, hsrt, runTry]
  · simp only [search_semantic_scholar, sscBody, hfs, runTry]
  · simp only [download_paper, downloadBody, hsD, runTry]
  · simp only [analyze_citations, citationsBody, runTry]
  · cases hv : dget aE "paper_text" (.str "") with
    | null => rw [hv] at hn; exact Option.noConfusion hn
    | bool b => rw [hv] at hn; exact Option.noConfusion hn
    | int k => rw [hv] at hn; exact Option.noConfusion hn
    | str s => exact absurd hv (hE2 s)
    | arr xs => simp only [extract_insights, insightsBody, hv, pyLen, runTry]
    | obj gs => simp only [extract_insights, insightsBody, hv, pyLen, runTry]
  · exact ⟨[runTry (storeBody md5hex pm (dget aK "insights" (.arr []))
        (dget aK "techniques" (.arr [])))],
      by simp only [store_paper_knowledge, hpm]⟩

/-- C1 amended witness: concrete argument dicts and a failing external
call with message "boom"; extract_insights is given the sized non-string
paper_text []. -/
theorem claim_C1_amended_witness :
    search_arxiv (fun _ _ _ => .error "boom") [] = .ok [failureEnv "boom"] ∧
    search_semantic_scholar (fun _ _ _ => .error "boom") [] = .ok [failureEnv "boom"] ∧
    download_paper isWordAscii "" (fun _ => .error "boom") (fun _ _ => .ok ()) [] =
      .ok [failureEnv "boom"] ∧
    analyze_citations (fun _ _ => .error "boom") [] = .ok [failureEnv "boom"] ∧
    extract_insights [("paper_text", JVal.arr [])] =
      .ok [failureEnv (reTypeErr (dget [("paper_text", JVal.arr [])] "paper_text" (.str "")))] ∧
    (∃ r, store_paper_knowledge (fun _ => "") [] = .ok r) :=
  claim_C1_amended "boom" (fun _ => "") isWordAscii "" (fun _ _ => .ok ())
    [] [] [] [] [("paper_text", JVal.arr [])] []
    ⟨SortCrit.relevance, rfl⟩
    ⟨"title,authors,abstract,citationCount,year", rfl⟩
    ⟨"", rfl⟩
    ⟨0, rfl⟩
    (fun _ h => JVal.noConfusion h)
    ⟨[], rfl⟩

/-- C5: for a successful download, the persisted file path is PAPERS_DIR
joined with the sanitized paper_id plus ".pdf", where sanitization keeps
word characters and hyphens and maps every other character to an
underscore; since the word-character class contains no path separator,
the filename component derived from paper_id contains none either. -/
theorem claim_C5_sanitized_path (isW : Char → Bool) (base u pid : String)
    (content : List Nat)
    (httpGet : JVal → Except String (List Nat))
    (writeB : String → List Nat → Except String Unit)
    (hslash : isW '/' = false) (hback : isW '\\' = false)
    (hget : httpGet (.str u) = .ok content)
    (hwrite : writeB (PAPERS_DIR base ++ "/" ++ sanitizeId isW pid ++ ".pdf") content = .ok ()) :
    download_paper isW (PAPERS_DIR base) httpGet writeB
        [("url", .str u), ("paper_id", .str pid)] =
      .ok [JVal.obj [("success", .bool true), ("paper_id", .str pid),
           ("file_path", .str (PAPERS_DIR base ++ "/" ++ sanitizeId isW pid ++ ".pdf")),
           ("size_bytes", .int (content.length : Int))]] ∧
    ∀ c ∈ (sanitizeId isW pid).data, c ≠ '/' ∧ c ≠ '\\' := by
  constructor
  · show Except.ok [runTry (downloadBody isW (PAPERS_DIR base) httpGet writeB
        (.str u) (.str pid))] = _
    simp only [downloadBody, hget, hwrite, runTry]
  · intro c hc
    simp only [sanitizeId] at hc
    obtain ⟨a, _, rfl⟩ := List.mem_map.1 hc
    constructor
    · intro e
      by_cases hb : (isW a || decide (a = '-')) = true
      · rw [sanChar, if_pos hb] at e
        subst e
        rw [hslash] at hb
        simp at hb
      · rw [sanChar, if_neg hb] at e
        exact absurd e (by decide)
    · intro e
      by_cases hb : (isW a || decide (a = '-')) = true
      · rw [sanChar, if_pos hb] at e
        subst e
        rw [hback] at hb
        simp at hb
      · rw [sanChar, if_neg hb] at e
        exact absurd e (by decide)

/-- C5 witness: downloading with paper_id "abc/123" persists to the
sanitized path under PAPERS_DIR. -/
theorem claim_C5_sanitized_path_witness :
    download_paper isWordAscii (PAPERS_DIR "/mnt/agentic-system")
        (fun _ => .ok [1, 2, 3]) (fun _ _ => .ok ())
        [("url", .str "https://x/y.pdf"), ("paper_id", .str "abc/123")] =
      .ok [JVal.obj [("success", .bool true), ("paper_id", .str "abc/123"),
           ("file_path", .str (PAPERS_DIR "/mnt/agentic-system" ++ "/" ++
             sanitizeId isWordAscii "abc/123" ++ ".pdf")),
           ("size_bytes", .int 3)]] ∧
    ∀ c ∈ (sanitizeId isWordAscii "abc/123").data, c ≠ '/' ∧ c ≠ '\\' :=
  claim_C5_sanitized_path isWordAscii "/mnt/agentic-system" "https://x/y.pdf"
    "abc/123" [1, 2, 3] (fun _ => .ok [1, 2, 3]) (fun _ _ => .ok ())
    rfl rfl rfl rfl

/-- C6: when search_arxiv's arguments omit max_results, the underlying
search is invoked with the default limit 10; if the search library honors
that limit, the success envelope's count is at most 10.  In general a
missing optional argument falls back to its dict.get default. -/
theorem claim_C6_default_limit
    (f : JVal → JVal → SortCrit → Except String (List JVal))
    (args : PyDict) (q : JVal) (srt : SortCrit) (ps : List JVal)
    (hnone : lookupJ args "max_results" = none)
    (hq : dget args "query" (.str "") = q)
    (hsort : sortMap (dget args "sort_by" (.str "relevance")) = .ok srt)
    (hf : f q (.int 10) srt = .ok ps)
    (hlim : ∀ q2 s2 ps2, f q2 (.int 10) s2 = .ok ps2 → ps2.length ≤ 10) :
    search_arxiv f args =
      .ok [JVal.obj [("success", .bool true), ("query", q),
           ("count", .int (ps.length : Int)), ("papers", .arr ps)]] ∧
    ps.length ≤ 10 ∧
    (∀ (d : PyDict) (k : String) (v : JVal), lookupJ d k = none → dget d k v = v) := by
  refine ⟨?_, hlim q srt ps hf, fun d k v hv => by simp [dget, hv]⟩
  have hmax : dget args "max_results" (.int 10) = .int 10 := by
    simp [dget, hnone]
  show Except.ok [runTry (arxivBody f (dget args "query" (.str ""))
      (dget args "max_results" (.int 10))
      (dget args "sort_by" (.str "relevance")))] = _
  rw [hq, hmax]
  simp only [arxivBody, hsort, hf, runTry]

/-- C6 witness: the concrete call with arguments only containing query,
against an empty-result search library. -/
theorem claim_C6_default_limit_witness :
    search_arxiv (fun _ _ _ => .ok ([] : List JVal))
        [("query", .str "self-improvement")] =
      .ok [JVal.obj [("success", .bool true), ("query", .str "self-improvement"),
           ("count", .int 0), ("papers", .arr [])]] ∧
    ([] : List JVal).length ≤ 10 ∧
    (∀ (d : PyDict) (k : String) (v : JVal), lookupJ d k = none → dget d k v = v) :=
  claim_C6_default_limit (fun _ _ _ => .ok []) [("query", .str "self-improvement")]
    (.str "self-improvement") SortCrit.relevance [] rfl rfl rfl rfl
    (fun _ _ ps2 h => by cases h; decide)

/-- The key sentence of the spec's extract_insights scenario. -/
def paperSentence : String :=
  "We propose a novel method that achieves state-of-the-art results."

/-- C7 counterexample: a paper_text that contains the sentence followed by
further text loses the sentence's terminal period to the sentence
splitter, so the sentence as written does not appear in the returned
insights, refuting the claim for this input. -/
theorem claim_C7_counterexample :
    containsSub (paperSentence ++ " And more.") paperSentence = true ∧
    paperSentence ∉ insightsOf (paperSentence ++ " And more.") ∧
    insightsOf (paperSentence ++ " And more.") =
      ["We propose a novel method that achieves state-of-the-art results"] := by
  refine ⟨rfl, by decide, rfl⟩

/-- C7 amended: when paper_text is exactly the sentence (so no split
boundary removes its period), the sentence appears in the returned
insights of the Success envelope: it contains the key phrase "we propose"
and its length 65 lies strictly between 50 and 300. -/
theorem claim_C7_amended :
    extract_insights [("paper_text", .str paperSentence)] =
      .ok [JVal.obj [("success", .bool true),
           ("insights", .arr [.str paperSentence]),
           ("focus_areas", .arr [])]] ∧
    paperSentence ∈ insightsOf paperSentence ∧
    hasKeyPhrase paperSentence = true ∧
    50 < paperSentence.length ∧ paperSentence.length < 300 := by
  refine ⟨rfl, by decide, rfl, by decide, by decide⟩

/-- Unfolding equation of the insight loop on the empty sentence list. -/
theorem insightLoop_nil (acc : List String) : insightLoop [] acc = acc := rfl

/-- Unfolding equation of the insight loop on a sentence-list cons. -/
theorem insightLoop_cons (s : String) (rest acc : List String) :
    insightLoop (s :: rest) acc =
      if 10 ≤ (insightStep s acc).length then insightStep s acc
      else insightLoop rest (insightStep s acc) := rfl

/-- The insight loop appends, in order, the stripped forms of a
subsequence of the sentences, each of which passes the filter. -/
theorem insightLoop_spec (ss : List String) : ∀ acc : List String,
    ∃ l : List String, List.Sublist l ss ∧
      insightLoop ss acc = acc ++ l.map pyStrip ∧
      ∀ s ∈ l, keepSentence s = true := by
  induction ss with
  | nil =>
    intro acc
    exact ⟨[], List.nil_sublist _, by simp [insightLoop_nil], by simp⟩
  | cons s rest ih =>
    intro acc
    by_cases hk : keepSentence s = true
    · have hstep : insightStep s acc = acc ++ [pyStrip s] := by
        rw [insightStep, if_pos hk]
      by_cases hb : 10 ≤ (insightStep s acc).length
      · refine ⟨[s], List.Sublist.cons₂ s (List.nil_sublist rest), ?_, ?_⟩
        · rw [insightLoop_cons, if_pos hb, hstep]
          simp
        · intro x hx
          rw [List.mem_singleton] at hx
          subst hx
          exact hk
      · obtain ⟨l, hsub, heq, hcond⟩ := ih (insightStep s acc)
        refine ⟨s :: l, List.Sublist.cons₂ s hsub, ?_, ?_⟩
        · rw [insightLoop_cons, if_neg hb, heq, hstep]
          simp
        · intro x hx
          rcases List.mem_cons.1 hx with h | h
          · subst h; exact hk
          · exact hcond x h
    · have hstep : insightStep s acc = acc := by
        rw [insightStep, if_neg hk]
      by_cases hb : 10 ≤ (insightStep s acc).length
      · refine ⟨[], List.nil_sublist _, ?_, by simp⟩
        rw [insightLoop_cons, if_pos hb, hstep]
        simp
      · obtain ⟨l, hsub, heq, hcond⟩ := ih (insightStep s acc)
        refine ⟨l, hsub.cons s, ?_, hcond⟩
        rw [insightLoop_cons, if_neg hb, heq, hstep]

/-- Starting from at most nine accumulated insights, the loop never
returns more than ten (it breaks as soon as ten are reached). -/
theorem insightLoop_le (ss : List String) : ∀ acc : List String,
    acc.length ≤ 9 → (insightLoop ss acc).length ≤ 10 := by
  induction ss with
  | nil =>
    intro acc h
    rw [insightLoop_nil]
    omega
  | cons s rest ih =>
    intro acc h
    have hlen : (insightStep s acc).length ≤ acc.length + 1 := by
      rw [insightStep]
      split
      · simp
      · omega
    rw [insightLoop_cons]
    by_cases hb : 10 ≤ (insightStep s acc).length
    · rw [if_pos hb]
      omega
    · rw [if_neg hb]
      exact ih (insightStep s acc) (by omega)

/-- C8: a successful extract_insights response carries at most ten
insights; every insight is the stripped form of one of the split
sentences of paper_text, in order of occurrence, and each underlying
sentence has a recognized key phrase in its lowercase form and raw length
strictly between 50 and 300. -/
theorem claim_C8_insights_shape (text : String) (focus : JVal) :
    extract_insights [("paper_text", .str text), ("focus_areas", focus)] =
      .ok [JVal.obj [("success", .bool true),
           ("insights", .arr ((insightsOf text).map JVal.str)),
           ("focus_areas", focus)]] ∧
    (insightsOf text).length ≤ 10 ∧
    ∃ l : List String, List.Sublist l (splitSentences text) ∧
      insightsOf text = l.map pyStrip ∧
      ∀ s ∈ l, hasKeyPhrase s = true ∧ 50 < s.length ∧ s.length < 300 := by
  refine ⟨rfl, insightLoop_le _ [] (by simp), ?_⟩
  obtain ⟨l, hsub, heq, hcond⟩ := insightLoop_spec (splitSentences text) []
  refine ⟨l, hsub, by simpa [insightsOf] using heq, fun s hs => ?_⟩
  have h := hcond s hs
  rw [keepSentence, Bool.and_eq_true, Bool.and_eq_true] at h
  obtain ⟨⟨h1, h2⟩, h3⟩ := h
  exact ⟨h1, of_decide_eq_true h2, of_decide_eq_true h3⟩

/-- C9: with insights and techniques supplied as lists, a Success envelope
of store_paper_knowledge reports observations_count = 4 + |insights| +
|techniques| and an entity_name carrying the "research_paper_" prefix; the
handler is a pure function of its arguments, so equal argument dicts give
equal envelopes. -/
theorem claim_C9_store_counts (md5hex : String → String) (pm : PyDict)
    (ins tech : List JVal) (idPart authorsStr : String)
    (hid : storeIdPart md5hex pm = .ok idPart)
    (hauth : pyJoin ", " ((lookupJ pm "authors").getD (.arr [])) = .ok authorsStr) :
    store_paper_knowledge md5hex
        [("paper_metadata", .obj pm), ("insights", .arr ins), ("techniques", .arr tech)] =
      .ok [JVal.obj [("success", .bool true),
           ("entity_name", .str ("research_paper_" ++ idPart)),
           ("observations_count", .int ((4 + ins.length + tech.length : Nat) : Int)),
           ("message", .str "Paper knowledge ready for storage in enhanced-memory")]] ∧
    (∀ a b : PyDict, a = b →
      store_paper_knowledge md5hex a = store_paper_knowledge md5hex b) := by
  refine ⟨?_, fun a b h => by rw [h]⟩
  show Except.ok [runTry (storeBody md5hex pm (.arr ins) (.arr tech))] = _
  have hcount :
      ((["Title: " ++ pyStrF ((lookupJ pm "title").getD .null),
         "Authors: " ++ authorsStr,
         "Year: " ++ pyStrF ((lookupJ pm "year").getD (.str "Unknown")),
         "Citations: " ++ pyStrF ((lookupJ pm "citationCount").getD (.int 0))]
        ++ ins.map (fun i => "Insight: " ++ pyStrF i)
        ++ tech.map (fun t => "Technique: " ++ pyStrF t)).length : Nat)
      = 4 + ins.length + tech.length := by
    simp [List.length_append]
    omega
  simp only [storeBody, hid, hauth, pyIter, runTry, hcount]

/-- C9 witness: a paper with id "X" and empty insight and technique lists
yields observations_count 4 and entity_name research_paper_X. -/
theorem claim_C9_store_counts_witness :
    store_paper_knowledge (fun _ => "")
        [("paper_metadata", .obj [("id", .str "X")]),
         ("insights", .arr []), ("techniques", .arr [])] =
      .ok [JVal.obj [("success", .bool true),
           ("entity_name", .str ("research_paper_" ++ "X")),
           ("observations_count", .int ((4 + 0 + 0 : Nat) : Int)),
           ("message", .str "Paper knowledge ready for storage in enhanced-memory")]] ∧
    (∀ a b : PyDict, a = b →
      store_paper_knowledge (fun _ => "") a = store_paper_knowledge (fun _ => "") b) :=
  claim_C9_store_counts (fun _ => "") [("id", .str "X")] [] [] "X" "" rfl rfl
